import Mathlib

/-!
Verification development for the QA Intelligence Dashboard aggregation core.

The embedded code is the Azure DevOps service (`buildBreakdown`,
`AzureDevOpsService.getTestResultsByPipelines`, `getProjectDataFromPipelines`,
`getProjectData`, `getDefects`, `transformDefects`,
`isAzureDevOpsConfigured`) and the orchestration in `App.tsx`
(`refreshData`, `fetchFromDemo`) together with `isConfigured` from the
settings context.

Modelling conventions:
* JS numbers that only ever hold test counts are modelled as `Nat`; pass
  rates, which are genuine fractions, are modelled as `Rat`.  `toFixed(1)`
  followed by `parseFloat` is modelled as exact decimal rounding to one
  place (round half away from zero on the non-negative values that occur).
* Remote fetches are modelled as oracle functions returning
  `Except TransportError _`; a thrown exception is the `error` case and a
  `try/catch` block is a `match` on it.
* JS string truthiness (`s || d`, `if (x)`) is modelled explicitly: the
  empty string is falsy.
* `Map<string, _>` is modelled as an association list in insertion order
  with overwrite-on-set, mirroring JS `Map` semantics.
-/

namespace QADash

/-- A thrown transport error (`throw new Error(...)` in
`AzureDevOpsService.request`): only the message is observable. -/
structure TransportError where
  message : String
deriving DecidableEq, Repr

/-- The runtime error raised by evaluating the module object literal in
`getProjectDataFromPipelines` (lines 454-469): the fields
`automatedTests: automated || pr.totalTests` and `manualTests: manual`
reference the identifiers `automated` and `manual`, which are declared
nowhere in the module; under JS semantics this is a `ReferenceError`
(under `tsc` a compile error). -/
inductive JsError where
  | referenceError (name : String)
deriving DecidableEq, Repr

/-- `TestTypeBreakdown` (declared in the reporting model; shape
`{total, passed, failed, skipped, passRate}`). -/
structure TestTypeBreakdown where
  total : Nat
  passed : Nat
  failed : Nat
  skipped : Nat
  passRate : Rat
deriving DecidableEq, Repr

/-- Exact rounding of a rational to one decimal place, the idealization of
`parseFloat(x.toFixed(1))` on the non-negative values produced here. -/
def round1 (q : Rat) : Rat := ((round (10 * q) : Int) : Rat) / 10

/-- `buildBreakdown(total, passed, failed, skipped)` (service lines 77-85):
`passRate: (passed + failed) > 0 ? parseFloat(((passed / (passed + failed)) * 100).toFixed(1)) : 0`. -/
def buildBreakdown (total passed failed skipped : Nat) : TestTypeBreakdown :=
  { total := total
    passed := passed
    failed := failed
    skipped := skipped
    passRate :=
      if passed + failed > 0 then
        round1 (((passed : Rat) / ((passed : Rat) + (failed : Rat))) * 100)
      else 0 }

/-- `AzureTestRun` (the fields the aggregation reads). -/
structure AzureTestRun where
  id : Nat
  name : String
  isAutomated : Bool
  totalTests : Nat
  passedTests : Nat
  failedTests : Nat
  notApplicableTests : Nat
deriving DecidableEq, Repr

/-- `AzureTestResult` (the fields the aggregation reads).  `outcome` is one
of the strings `Passed | Failed | NotExecuted | Blocked` at the type level
but is carried as a string, as at runtime. -/
structure AzureTestResult where
  id : Nat
  outcome : String
  automatedTestName : Option String
deriving DecidableEq, Repr

/-- `AzureBuild.definition`: `{name, id}`. -/
structure BuildDefinition where
  name : String
  id : Nat
deriving DecidableEq, Repr

/-- `AzureBuild` (the fields the aggregation reads). -/
structure AzureBuild where
  id : Nat
  buildNumber : String
  startTime : String
  finishTime : String
  definition : BuildDefinition
deriving DecidableEq, Repr

/-- `AzureWorkItem` with its `fields` object flattened:
`System.Title`, `System.State`, `System.AssignedTo?.displayName`,
`Microsoft.VSTS.Common.Severity?`, `System.CreatedDate`, `System.AreaPath`. -/
structure AzureWorkItem where
  id : Nat
  title : String
  state : String
  assignedTo : Option String
  severity : Option String
  createdDate : String
  areaPath : String
deriving DecidableEq, Repr

/-- `ModuleTestResult` as constructed by the aggregators.  `automated` and
`manual` are optional because the module literal of the pipeline-centric
strategy (lines 454-469) contains no such fields, while the test-plan
literal (lines 528-542) sets them. -/
structure ModuleTestResult where
  moduleId : String
  moduleName : String
  totalTests : Nat
  executed : Nat
  passed : Nat
  failed : Nat
  skipped : Nat
  passRate : Rat
  automatedTests : Nat
  manualTests : Nat
  automated : Option TestTypeBreakdown
  manual : Option TestTypeBreakdown
  linkedDefects : List String
  lastRunTime : Option String
deriving DecidableEq, Repr

/-- `ProjectData` as constructed by the aggregators. -/
structure ProjectData where
  projectId : String
  projectName : String
  modules : List ModuleTestResult
  totalTests : Nat
  executed : Nat
  passed : Nat
  failed : Nat
  skipped : Nat
  passRate : Rat
  automatedTests : Nat
  manualTests : Nat
  automated : TestTypeBreakdown
  manual : TestTypeBreakdown
  lastRunTime : Option String
  runCount : Option Nat
deriving DecidableEq, Repr

/-- The per-build record accumulated by `getTestResultsByPipelines`
(lines 360-371 and 395-406). -/
structure PipelineResult where
  pipelineName : String
  definitionId : Nat
  buildId : Nat
  buildNumber : String
  completedDate : String
  totalTests : Nat
  passed : Nat
  failed : Nat
  skipped : Nat
  results : List AzureTestResult
deriving DecidableEq, Repr

/-- The remote fetches issued inside the per-build loop of
`getTestResultsByPipelines`: `getTestRunsForBuild(project, build.id)` and
`getTestResults(project, run.id)`.  The build list itself
(`getBuildsByDate`, fetched before the loop) is passed as an input. -/
structure Fetches where
  testRunsForBuild : Nat → Except TransportError (List AzureTestRun)
  testResults : Nat → Except TransportError (List AzureTestResult)

/-- The inner `for (const run of testRuns)` loop (lines 385-393):
accumulate `totalTests/passed/failed/skipped` from each run's summary
counters and append the run's individual results, aborting the build on a
thrown fetch error. -/
def accumRuns (f : Fetches) :
    List AzureTestRun → Nat × Nat × Nat × Nat × List AzureTestResult →
    Except TransportError (Nat × Nat × Nat × Nat × List AzureTestResult)
  | [], acc => .ok acc
  | run :: rest, (t, p, fl, s, res) =>
    match f.testResults run.id with
    | .error e => .error e
    | .ok rs =>
      accumRuns f rest
        (t + run.totalTests, p + run.passedTests, fl + run.failedTests,
         s + run.notApplicableTests, res ++ rs)

/-- One iteration of the `for (const build of builds)` loop of
`getTestResultsByPipelines` (lines 374-410).  The loop body is wrapped in
`try { ... } catch { console.warn(...) }`, so a build whose fetches throw
contributes nothing (`none`); a build with no test runs is skipped
(`continue`); otherwise a `PipelineResult` is pushed, with
`completedDate: build.finishTime || build.startTime`. -/
def processBuild (f : Fetches) (build : AzureBuild) : Option PipelineResult :=
  match f.testRunsForBuild build.id with
  | .error _ => none
  | .ok testRuns =>
    if testRuns.isEmpty then none
    else
      match accumRuns f testRuns (0, 0, 0, 0, []) with
      | .error _ => none
      | .ok (t, p, fl, s, allResults) =>
        some
          { pipelineName := build.definition.name
            definitionId := build.definition.id
            buildId := build.id
            buildNumber := build.buildNumber
            completedDate :=
              if build.finishTime = "" then build.startTime else build.finishTime
            totalTests := t
            passed := p
            failed := fl
            skipped := s
            results := allResults }

/-- `getTestResultsByPipelines` after the build-list fetch: the surviving
per-build summaries in build order (lines 374-412). -/
def getTestResultsByPipelines (f : Fetches) (builds : List AzureBuild) :
    List PipelineResult :=
  builds.filterMap (processBuild f)

/-- JS truthiness of the optional string `r.automatedTestName`: present and
non-empty. -/
def truthy : Option String → Bool
  | some s => !s.isEmpty
  | none => false

/-- `pr.results.filter(r => r.automatedTestName).length` (line 448). -/
def autoCount (rs : List AzureTestResult) : Nat :=
  (rs.filter (fun r => truthy r.automatedTestName)).length

/-- `pr.results.length - autoCount` (line 449). -/
def manualCount (rs : List AzureTestResult) : Nat := rs.length - autoCount rs

/-- `pr.results.filter(r => r.automatedTestName && r.outcome === 'Passed').length` (line 450). -/
def autoPassed (rs : List AzureTestResult) : Nat :=
  (rs.filter (fun r => truthy r.automatedTestName && r.outcome = "Passed")).length

/-- `pr.results.filter(r => r.automatedTestName && r.outcome === 'Failed').length` (line 451). -/
def autoFailed (rs : List AzureTestResult) : Nat :=
  (rs.filter (fun r => truthy r.automatedTestName && r.outcome = "Failed")).length

/-- `autoCount - autoPassed - autoFailed` (line 452). -/
def autoSkipped (rs : List AzureTestResult) : Nat :=
  autoCount rs - autoPassed rs - autoFailed rs

/-- `pr.results.filter(r => !r.automatedTestName && r.outcome === 'Passed').length` (line 453). -/
def manualPassed (rs : List AzureTestResult) : Nat :=
  (rs.filter (fun r => !truthy r.automatedTestName && r.outcome = "Passed")).length

/-- The `moduleId` field expression of the module literal:
`` `pipeline-${pr.definitionId}` `` (line 455). -/
def pipelineModuleId (pr : PipelineResult) : String :=
  "pipeline-" ++ toString pr.definitionId

/-- The module literal of `pipelineResults.map(pr => ...)` (lines 446-470).
After computing the classification counts (`autoCount` .. `manualPassed`,
lines 448-453, which are bound but, except for `autoCount`/`manualCount`
feeding nothing, never stored), evaluation of the literal reaches
`automatedTests: automated || pr.totalTests` and `manualTests: manual`;
`automated` and `manual` are unbound identifiers, so the construction
throws a `ReferenceError` before any module object exists.  The earlier
fields (`moduleId` .. `passRate`) are evaluated first but the throw
discards them.  No `automated`/`manual` breakdown fields appear in the
literal at all. -/
def mkPipelineModule (_pr : PipelineResult) : Except JsError ModuleTestResult :=
  .error (.referenceError "automated")

/-- The all-zero `ProjectData` returned when `pipelineResults` is empty
(lines 427-443): zero counters, empty module list, zero breakdowns, and no
`lastRunTime`/`runCount` fields. -/
def emptyPipelineProject (projectName : String) : ProjectData :=
  { projectId := "proj-" ++ projectName
    projectName := projectName
    modules := []
    totalTests := 0
    executed := 0
    passed := 0
    failed := 0
    skipped := 0
    passRate := 0
    automatedTests := 0
    manualTests := 0
    automated := buildBreakdown 0 0 0 0
    manual := buildBreakdown 0 0 0 0
    lastRunTime := none
    runCount := none }

/-- The project-level aggregation of `getProjectDataFromPipelines`
(lines 472-496): reduce the module counters, compute
`passRate = executed > 0 ? totalPassed/executed*100 : 0`, and build the
`automated`/`manual` breakdowns from `m.automated.passed` etc. — fields
the pipeline module literal does not define, so reading them is a further
runtime type error, modelled as a `JsError`.  This code is reachable only
if every module constructed successfully. -/
def aggregatePipelineProject (projectName : String) (prs : List PipelineResult)
    (modules : List ModuleTestResult) : Except JsError ProjectData :=
  match modules.mapM (fun m =>
      (match m.automated, m.manual with
       | some a, some mn => Except.ok (a, mn)
       | _, _ => Except.error (JsError.referenceError "automated") :
        Except JsError (TestTypeBreakdown × TestTypeBreakdown))) with
  | .error e => .error e
  | .ok breakdowns =>
    let totalTests := (modules.map (·.totalTests)).sum
    let totalPassed := (modules.map (·.passed)).sum
    let totalFailed := (modules.map (·.failed)).sum
    let totalSkipped := (modules.map (·.skipped)).sum
    let totalAutomated := (modules.map (·.automatedTests)).sum
    let totalManual := (modules.map (·.manualTests)).sum
    let executed := totalPassed + totalFailed
    .ok
      { projectId := "proj-" ++ projectName
        projectName := projectName
        modules := modules
        totalTests := totalTests
        executed := executed
        passed := totalPassed
        failed := totalFailed
        skipped := totalSkipped
        passRate :=
          if executed > 0 then ((totalPassed : Rat) / (executed : Rat)) * 100 else 0
        automatedTests := totalAutomated
        manualTests := totalManual
        automated :=
          buildBreakdown totalAutomated
            ((breakdowns.map (fun b => b.1.passed)).sum)
            ((breakdowns.map (fun b => b.1.failed)).sum)
            ((breakdowns.map (fun b => b.1.skipped)).sum)
        manual :=
          buildBreakdown totalManual
            ((breakdowns.map (fun b => b.2.passed)).sum)
            ((breakdowns.map (fun b => b.2.failed)).sum)
            ((breakdowns.map (fun b => b.2.skipped)).sum)
        lastRunTime := (prs.head?).map (·.completedDate)
        runCount := some prs.length }

/-- `getProjectDataFromPipelines` (lines 419-501).  The whole body is
wrapped in `try { ... } catch { return null }`; with a non-empty result
set the module construction throws (see `mkPipelineModule`), so the catch
yields `none`. -/
def getProjectDataFromPipelines (f : Fetches) (projectName : String)
    (builds : List AzureBuild) : Option ProjectData :=
  let pipelineResults := getTestResultsByPipelines f builds
  if pipelineResults.isEmpty then some (emptyPipelineProject projectName)
  else
    match pipelineResults.mapM mkPipelineModule with
    | .error _ => none
    | .ok modules =>
      match aggregatePipelineProject projectName pipelineResults modules with
      | .error _ => none
      | .ok p => some p

/-- `defect.fields['System.AreaPath'].split('\\').pop() || ''` (line 568):
the last path component after a backslash.  `split` always yields a
non-empty array whose last element is the text after the last backslash
(the whole string when there is none), so `pop()` is exactly that; `|| ''`
additionally maps an empty last element to `''` (a no-op).  Computed
directly as the characters after the last backslash. -/
def lastSegment (path : String) : String :=
  String.mk (path.data.foldl (fun acc c => if c = '\\' then [] else acc ++ [c]) [])

/-- The zero-counter module created for one area path (lines 528-542):
`moduleId = "mod-" + areaPath`, all counters zero, zero breakdowns, empty
defect list, and no `lastRunTime` field. -/
def zeroAreaModule (areaPath : String) : ModuleTestResult :=
  { moduleId := "mod-" ++ areaPath
    moduleName := areaPath
    totalTests := 0
    executed := 0
    passed := 0
    failed := 0
    skipped := 0
    passRate := 0
    automatedTests := 0
    manualTests := 0
    automated := some (buildBreakdown 0 0 0 0)
    manual := some (buildBreakdown 0 0 0 0)
    linkedDefects := []
    lastRunTime := none }

/-- `Map.set` semantics on an association list: overwrite the value of an
existing key in place, otherwise append the new entry. -/
def mapSet (m : List (String × ModuleTestResult)) (k : String)
    (v : ModuleTestResult) : List (String × ModuleTestResult) :=
  if k ∈ m.map Prod.fst then
    m.map (fun p => if p.1 = k then (k, v) else p)
  else m ++ [(k, v)]

/-- `areaPaths.forEach(areaPath => moduleMap.set(areaPath, {...}))`
(lines 527-543). -/
def initModules (areaPaths : List String) : List (String × ModuleTestResult) :=
  areaPaths.foldl (fun acc a => mapSet acc a (zeroAreaModule a)) []

/-- One step of `defects.forEach(...)` (lines 567-573): look the defect's
area-path tail up in the module map and, when found, push
`defect.id.toString()` onto that module's `linkedDefects`.  The map's keys
are unique, so the entrywise update touches exactly the matching entry. -/
def linkDefect (m : List (String × ModuleTestResult)) (d : AzureWorkItem) :
    List (String × ModuleTestResult) :=
  m.map (fun p =>
    if lastSegment d.areaPath = p.1 then
      (p.1, { p.2 with linkedDefects := p.2.linkedDefects ++ [toString d.id] })
    else p)

/-- The run-totals loop of `getProjectData` (lines 553-564): fold each
run's summary counters into the project totals, attributing
`run.totalTests` to the automated or manual total by the run's
`isAutomated` flag.  Components: (totalTests, totalPassed, totalFailed,
totalSkipped, totalAutomated, totalManual). -/
def foldRunTotals : List AzureTestRun → Nat × Nat × Nat × Nat × Nat × Nat →
    Nat × Nat × Nat × Nat × Nat × Nat
  | [], acc => acc
  | run :: rest, (t, p, fl, s, a, m) =>
    foldRunTotals rest
      (t + run.totalTests, p + run.passedTests, fl + run.failedTests,
       s + run.notApplicableTests,
       if run.isAutomated then a + run.totalTests else a,
       if run.isAutomated then m else m + run.totalTests)

/-- The body of `getProjectData` (lines 515-598) after the three fetches
succeeded: initialize one zero module per area path, fold the run totals,
link defects to modules by area-path tail, recompute module pass rates
(`executed > 0 ? passed/executed*100 : 0`), and assemble the project with
`executed = totalTests` and
`passRate = executed > 0 ? totalPassed/executed*100 : 0`.  The `automated`
breakdown receives all of `totalPassed/totalFailed/totalSkipped` and the
`manual` breakdown zeros (lines 596-597). -/
def getProjectDataCore (projectName : String) (testRuns : List AzureTestRun)
    (areaPaths : List String) (defects : List AzureWorkItem) : ProjectData :=
  let moduleMap := initModules areaPaths
  let totals := foldRunTotals testRuns (0, 0, 0, 0, 0, 0)
  let totalTests := totals.1
  let totalPassed := totals.2.1
  let totalFailed := totals.2.2.1
  let totalSkipped := totals.2.2.2.1
  let totalAutomated := totals.2.2.2.2.1
  let totalManual := totals.2.2.2.2.2
  let linkedMap := defects.foldl linkDefect moduleMap
  let modules := linkedMap.map (fun p =>
    { p.2 with
      passRate :=
        if p.2.executed > 0 then ((p.2.passed : Rat) / (p.2.executed : Rat)) * 100
        else 0 })
  let executed := totalTests
  { projectId := "proj-" ++ projectName
    projectName := projectName
    modules := modules
    totalTests := totalTests
    executed := executed
    passed := totalPassed
    failed := totalFailed
    skipped := totalSkipped
    passRate :=
      if executed > 0 then ((totalPassed : Rat) / (executed : Rat)) * 100 else 0
    automatedTests := totalAutomated
    manualTests := totalManual
    automated := buildBreakdown totalAutomated totalPassed totalFailed totalSkipped
    manual := buildBreakdown totalManual 0 0 0
    lastRunTime := none
    runCount := none }

/-- The three concurrent fetches of `getProjectData` (lines 517-521). -/
structure ProjectFetches where
  testRuns : Except TransportError (List AzureTestRun)
  areaPaths : Except TransportError (List String)
  defects : Except TransportError (List AzureWorkItem)

/-- `getProjectData` (lines 515-603): the body is wrapped in
`try { ... } catch { return null }`; a rejection of any of the three
fetches yields `null`. -/
def getProjectData (projectName : String) (f : ProjectFetches) :
    Option ProjectData :=
  match f.testRuns, f.areaPaths, f.defects with
  | .ok runs, .ok areaPaths, .ok defects =>
    some (getProjectDataCore projectName runs areaPaths defects)
  | _, _, _ => none

/-- The normalized `Defect` record constructed by `transformDefects`.
`severity` and `status` are the runtime string values. -/
structure Defect where
  id : String
  title : String
  severity : String
  status : String
  assignee : String
  createdDate : String
  environment : String
  linkedTestIds : List String
  workItemUrl : String
deriving DecidableEq, Repr

/-- The `severityMap` record literal (lines 610-615). -/
def severityMap : List (String × String) :=
  [("1 - Critical", "critical"), ("2 - High", "major"),
   ("3 - Medium", "minor"), ("4 - Low", "trivial")]

/-- The `statusMap` record literal (lines 617-623). -/
def statusMap : List (String × String) :=
  [("New", "open"), ("Active", "open"), ("In Progress", "in-progress"),
   ("Resolved", "resolved"), ("Closed", "closed")]

/-- The element transform of `transformDefects` (lines 609-636):
`severityMap[fields.Severity || ''] || 'minor'`,
`statusMap[fields.State] || 'open'`,
`fields.AssignedTo?.displayName || 'Unassigned'`,
`id: "DEF-" + wi.id`, and the work-item deep link. -/
def transformDefect (baseUrl organization environment : String)
    (wi : AzureWorkItem) : Defect :=
  { id := "DEF-" ++ toString wi.id
    title := wi.title
    severity := (severityMap.lookup (wi.severity.getD "")).getD "minor"
    status := (statusMap.lookup wi.state).getD "open"
    assignee :=
      match wi.assignedTo with
      | some n => if n = "" then "Unassigned" else n
      | none => "Unassigned"
    createdDate := wi.createdDate
    environment := environment
    linkedTestIds := []
    workItemUrl := baseUrl ++ "/" ++ organization ++ "/_workitems/edit/" ++ toString wi.id }

/-- `transformDefects(azureDefects, environment)` (lines 608-637). -/
def transformDefects (baseUrl organization : String)
    (azureDefects : List AzureWorkItem) (environment : String) : List Defect :=
  azureDefects.map (transformDefect baseUrl organization environment)

/-- The id-selection phase of `getDefects` (lines 278-287): if the WIQL
query matched nothing, return no batch and no items; otherwise issue one
batch detail fetch for `ids.slice(0, 200)` — the matched ids in query
order, truncated to the first 200.  The first component records the id
lists of the batch fetches issued (exactly one here); the second is the
returned work items. -/
def getDefects (wiqlIds : List Nat)
    (details : List Nat → List AzureWorkItem) :
    List (List Nat) × List AzureWorkItem :=
  if wiqlIds.isEmpty then ([], [])
  else
    let ids := wiqlIds.take 200
    ([ids], details ids)

/-- `AzureDevOpsConfig`. -/
structure AzureDevOpsConfig where
  organization : String
  personalAccessToken : String
  baseUrl : String
deriving DecidableEq, Repr

/-- `isAzureDevOpsConfigured(config)` (lines 643-645):
`Boolean(config.organization && config.personalAccessToken)` — both
strings non-empty under JS truthiness. -/
def isAzureDevOpsConfigured (config : AzureDevOpsConfig) : Bool :=
  !config.organization.isEmpty && !config.personalAccessToken.isEmpty

/-- The settings context's `isConfigured` value
(`Boolean(settings.azureDevOps.organization && settings.azureDevOps.personalAccessToken)`),
the flag `App.refreshData` branches on. -/
def isConfigured (config : AzureDevOpsConfig) : Bool :=
  !config.organization.isEmpty && !config.personalAccessToken.isEmpty

/-- The slice of dashboard state written by the fetch functions of `App`
that the orchestration claims concern: the project list, the flat defect
list, and `dataSourceError`. -/
structure DashState where
  projects : List ProjectData
  defects : List Defect
  dataSourceError : Option String
deriving DecidableEq, Repr

/-- The synthetic-data-generator outputs consumed by `fetchFromDemo`
(`getProjectsData` / `getDefects` of the mock module), abstracted as
opaque values: the orchestration forwards them unchanged. -/
structure DemoData where
  projects : List ProjectData
  defects : List Defect

/-- `fetchFromDemo` (App lines 153-160): clear `dataSourceError` to `null`
and install the synthetic-data outputs. -/
def fetchFromDemo (demo : DemoData) : DashState :=
  { projects := demo.projects
    defects := demo.defects
    dataSourceError := none }

/-- `refreshData` (App lines 162-180).  The two remote branches
(`fetchFromPipelines` / `fetchFromTestPlans`, taken only when
`isConfigured` holds) are passed as the states they would produce; the
unconfigured or demo case calls `fetchFromDemo`.  The body is a total
function — every rejection inside the branches is caught. -/
def refreshData (dataSource : String) (config : AzureDevOpsConfig)
    (demo : DemoData) (pipelinesState testplansState : DashState) : DashState :=
  if dataSource = "pipelines" && isConfigured config then pipelinesState
  else if dataSource = "testplans" && isConfigured config then testplansState
  else fetchFromDemo demo

/-! ## Theorems -/

/-- A surviving per-build summary carries the id of the build it came from. -/
theorem processBuild_buildId (f : Fetches) (b : AzureBuild) (pr : PipelineResult)
    (h : processBuild f b = some pr) : pr.buildId = b.id := by
  unfold processBuild at h
  split at h
  · exact absurd h (by simp)
  · split at h
    · exact absurd h (by simp)
    · split at h
      · exact absurd h (by simp)
      · simp only [Option.some.injEq] at h
        subst h
        rfl

/-- C2: in `getTestResultsByPipelines`, a build whose per-build fetch of
test runs throws is excluded from the result (no returned entry carries
its build id, provided no other build shares that id), every build whose
per-build processing succeeds contributes its entry, and the call itself
is total — the per-build `try/catch` confines the failure. -/
theorem pipelines_partial_failure_tolerance (f : Fetches)
    (builds : List AzureBuild) (b : AzureBuild) (e : TransportError)
    (hmem : b ∈ builds) (herr : f.testRunsForBuild b.id = .error e)
    (huniq : ∀ b' ∈ builds, b'.id = b.id → b' = b) :
    (∀ pr ∈ getTestResultsByPipelines f builds, pr.buildId ≠ b.id) ∧
    (∀ b' ∈ builds, ∀ pr, processBuild f b' = some pr →
      pr ∈ getTestResultsByPipelines f builds) := by
  constructor
  · intro pr hpr hid
    rcases List.mem_filterMap.mp hpr with ⟨b'', hb'', hsome⟩
    have hbid : b''.id = b.id := by
      rw [← processBuild_buildId f b'' pr hsome, hid]
    have hbb : b'' = b := huniq b'' hb'' hbid
    subst hbb
    rw [processBuild, herr] at hsome
    exact absurd hsome (by simp)
  · intro b' hb' pr hsome
    exact List.mem_filterMap.mpr ⟨b', hb', hsome⟩

/-- Concrete scenario for C2: three builds, all sharing one test run and
one result, except that fetching the runs of build 102 throws. -/
def c2Run : AzureTestRun :=
  { id := 11, name := "run", isAutomated := true, totalTests := 5,
    passedTests := 3, failedTests := 1, notApplicableTests := 1 }

/-- The three builds of the C2 scenario. -/
def c2Builds : List AzureBuild :=
  [{ id := 101, buildNumber := "20240101.1", startTime := "s1", finishTime := "f1",
     definition := { name := "CI", id := 1 } },
   { id := 102, buildNumber := "20240101.2", startTime := "s2", finishTime := "f2",
     definition := { name := "CI", id := 1 } },
   { id := 103, buildNumber := "20240101.3", startTime := "s3", finishTime := "f3",
     definition := { name := "Nightly", id := 2 } }]

/-- The C2 fetch oracle: build 102's test-run fetch throws. -/
def c2Fetches : Fetches :=
  { testRunsForBuild := fun buildId =>
      if buildId = 102 then .error { message := "Azure DevOps API error: 503" }
      else .ok [c2Run]
    testResults := fun _ =>
      .ok [{ id := 21, outcome := "Passed", automatedTestName := some "Suite.test1" }] }

/-- Witness for C2 at the concrete three-build scenario: builds 101 and
103 survive, build 102 is absent, nothing throws. -/
theorem pipelines_partial_failure_tolerance_witness :
    ((getTestResultsByPipelines c2Fetches c2Builds).map (fun pr => pr.buildId)
        = [101, 103]) ∧
    ((∀ pr ∈ getTestResultsByPipelines c2Fetches c2Builds, pr.buildId ≠ 102) ∧
     (∀ b' ∈ c2Builds, ∀ pr, processBuild c2Fetches b' = some pr →
        pr ∈ getTestResultsByPipelines c2Fetches c2Builds)) :=
  ⟨by decide,
   pipelines_partial_failure_tolerance c2Fetches c2Builds
     { id := 102, buildNumber := "20240101.2", startTime := "s2", finishTime := "f2",
       definition := { name := "CI", id := 1 } }
     { message := "Azure DevOps API error: 503" }
     (by decide) rfl (by decide)⟩

/-- C8: when the WIQL phase matches more than 200 ids, `getDefects`
issues exactly one batch detail fetch, whose id list is exactly the first
200 matched ids in query order; everything past the 200th id is dropped. -/
theorem getDefects_batch_cap (wiqlIds : List Nat)
    (details : List Nat → List AzureWorkItem) (h : 200 < wiqlIds.length) :
    (getDefects wiqlIds details).1 = [wiqlIds.take 200] ∧
    (wiqlIds.take 200).length = 200 ∧
    (∀ i, i < 200 → (wiqlIds.take 200)[i]? = wiqlIds[i]?) ∧
    (getDefects wiqlIds details).2 = details (wiqlIds.take 200) := by
  have hne : wiqlIds.isEmpty = false := by
    cases wiqlIds with
    | nil => simp at h
    | cons a l => rfl
  refine ⟨?_, ?_, ?_, ?_⟩
  · simp [getDefects, hne]
  · simp [List.length_take, Nat.min_eq_left (Nat.le_of_lt h)]
  · intro i hi
    exact List.getElem?_take_of_lt hi
  · simp [getDefects, hne]

/-- Witness for C8: 350 matching ids result in one batch fetch of the
first 200 ids. -/
theorem getDefects_batch_cap_witness :
    200 < (List.range 350).length ∧
    ((getDefects (List.range 350) (fun _ => [])).1 = [(List.range 350).take 200] ∧
     ((List.range 350).take 200).length = 200 ∧
     (∀ i, i < 200 → ((List.range 350).take 200)[i]? = (List.range 350)[i]?) ∧
     (getDefects (List.range 350) (fun _ => [])).2 = (fun _ => ([] : List AzureWorkItem)) ((List.range 350).take 200)) :=
  ⟨by simp, getDefects_batch_cap (List.range 350) (fun _ => []) (by simp)⟩

/-- A build whose run fetch returns the empty list is skipped. -/
theorem processBuild_no_runs (f : Fetches) (b : AzureBuild)
    (h : f.testRunsForBuild b.id = .ok []) : processBuild f b = none := by
  rw [processBuild, h]
  rfl

/-- C9: when no build of the selected date has any test runs,
`getProjectDataFromPipelines` returns the all-zero project with an empty
module list — not an error and not `null`. -/
theorem pipelines_empty_day_zero_project (f : Fetches) (name : String)
    (builds : List AzureBuild)
    (h : ∀ b ∈ builds, f.testRunsForBuild b.id = .ok []) :
    ∃ p, getProjectDataFromPipelines f name builds = some p ∧
      p.modules = [] ∧ p.totalTests = 0 ∧ p.executed = 0 ∧ p.passed = 0 ∧
      p.failed = 0 ∧ p.skipped = 0 ∧ p.passRate = 0 ∧
      p.automated = buildBreakdown 0 0 0 0 ∧ p.manual = buildBreakdown 0 0 0 0 := by
  have hempty : getTestResultsByPipelines f builds = [] := by
    unfold getTestResultsByPipelines
    exact List.filterMap_eq_nil_iff.mpr (fun b hb => processBuild_no_runs f b (h b hb))
  refine ⟨emptyPipelineProject name, ?_, rfl, rfl, rfl, rfl, rfl, rfl, rfl, rfl, rfl⟩
  rw [getProjectDataFromPipelines, hempty]
  rfl

/-- The single build of the C9 witness scenario. -/
def c9Build : AzureBuild :=
  { id := 201, buildNumber := "20240102.1", startTime := "s", finishTime := "f",
    definition := { name := "CI", id := 3 } }

/-- The C9 fetch oracle: the build exists but has no test runs. -/
def c9Fetches : Fetches :=
  { testRunsForBuild := fun _ => .ok []
    testResults := fun _ => .ok [] }

/-- Witness for C9: one build with zero test runs yields the all-zero
project with no modules. -/
theorem pipelines_empty_day_zero_project_witness :
    ∃ p, getProjectDataFromPipelines c9Fetches "WebShop" [c9Build] = some p ∧
      p.modules = [] ∧ p.totalTests = 0 ∧ p.executed = 0 ∧ p.passed = 0 ∧
      p.failed = 0 ∧ p.skipped = 0 ∧ p.passRate = 0 ∧
      p.automated = buildBreakdown 0 0 0 0 ∧ p.manual = buildBreakdown 0 0 0 0 :=
  pipelines_empty_day_zero_project c9Fetches "WebShop" [c9Build]
    (fun _ _ => rfl)

/-- Any value found in `severityMap` is one of the four normalized
severities. -/
theorem lookup_severityMap_mem (k v : String) (h : severityMap.lookup k = some v) :
    v ∈ ["critical", "major", "minor", "trivial"] := by
  simp only [severityMap, List.lookup] at h
  repeat' split at h
  all_goals simp_all

/-- A key that is none of the four raw severities finds nothing in
`severityMap`. -/
theorem lookup_severityMap_none (k : String)
    (h : k ∉ ["1 - Critical", "2 - High", "3 - Medium", "4 - Low"]) :
    severityMap.lookup k = none := by
  simp only [severityMap, List.lookup]
  repeat' split
  all_goals simp_all

/-- Any value found in `statusMap` is one of the four normalized
statuses. -/
theorem lookup_statusMap_mem (k v : String) (h : statusMap.lookup k = some v) :
    v ∈ ["open", "in-progress", "resolved", "closed"] := by
  simp only [statusMap, List.lookup] at h
  repeat' split at h
  all_goals simp_all

/-- A key that is none of the five raw states finds nothing in
`statusMap`. -/
theorem lookup_statusMap_none (k : String)
    (h : k ∉ ["New", "Active", "In Progress", "Resolved", "Closed"]) :
    statusMap.lookup k = none := by
  simp only [statusMap, List.lookup]
  repeat' split
  all_goals simp_all

/-- C10: `transformDefects` is total — one `Defect` per raw work item —
and normalizes every field: `severity` is always one of
critical/major/minor/trivial, falling back to `minor` when the raw
severity field is absent or unrecognized; `status` is always one of
open/in-progress/resolved/closed, falling back to `open` for an
unrecognized state; `assignee` falls back to `"Unassigned"` when no
assignee is present; and `id` is `"DEF-"` followed by the work-item id. -/
theorem transformDefects_safe (baseUrl org env : String)
    (ws : List AzureWorkItem) :
    (transformDefects baseUrl org ws env).length = ws.length ∧
    (transformDefects baseUrl org ws env = ws.map (transformDefect baseUrl org env)) ∧
    ∀ wi ∈ ws,
      (transformDefect baseUrl org env wi).severity ∈
        ["critical", "major", "minor", "trivial"] ∧
      (wi.severity = none → (transformDefect baseUrl org env wi).severity = "minor") ∧
      (∀ s, wi.severity = some s →
        s ∉ ["1 - Critical", "2 - High", "3 - Medium", "4 - Low"] →
        (transformDefect baseUrl org env wi).severity = "minor") ∧
      (transformDefect baseUrl org env wi).status ∈
        ["open", "in-progress", "resolved", "closed"] ∧
      (wi.state ∉ ["New", "Active", "In Progress", "Resolved", "Closed"] →
        (transformDefect baseUrl org env wi).status = "open") ∧
      (wi.assignedTo = none → (transformDefect baseUrl org env wi).assignee = "Unassigned") ∧
      (transformDefect baseUrl org env wi).id = "DEF-" ++ toString wi.id := by
  refine ⟨by simp [transformDefects], rfl, ?_⟩
  intro wi _
  refine ⟨?_, ?_, ?_, ?_, ?_, ?_, rfl⟩
  · show (severityMap.lookup (wi.severity.getD "")).getD "minor" ∈ _
    cases hl : severityMap.lookup (wi.severity.getD "") with
    | none => simp
    | some v => simpa using lookup_severityMap_mem _ v hl
  · intro hnone
    show (severityMap.lookup (wi.severity.getD "")).getD "minor" = _
    rw [hnone]
    rfl
  · intro s hs hmem
    show (severityMap.lookup (wi.severity.getD "")).getD "minor" = _
    rw [hs]
    have : severityMap.lookup s = none := lookup_severityMap_none s hmem
    simp [this]
  · show (statusMap.lookup wi.state).getD "open" ∈ _
    cases hl : statusMap.lookup wi.state with
    | none => simp
    | some v => simpa using lookup_statusMap_mem _ v hl
  · intro hmem
    show (statusMap.lookup wi.state).getD "open" = _
    have : statusMap.lookup wi.state = none := lookup_statusMap_none _ hmem
    simp [this]
  · intro hnone
    show (match wi.assignedTo with
          | some n => if n = "" then "Unassigned" else n
          | none => "Unassigned") = _
    rw [hnone]

/-- The raw work item of the C10 witness: no severity, an unrecognized
state, and no assignee. -/
def c10Item : AzureWorkItem :=
  { id := 4711, title := "Checkout broken", state := "Triage",
    assignedTo := none, severity := none, createdDate := "2024-01-02",
    areaPath := "Shop\\Checkout" }

/-- Witness for C10 at a work item exercising every fallback. -/
theorem transformDefects_safe_witness :
    ((transformDefects "https://dev.azure.com" "org" [c10Item] "QA").length = 1) ∧
    ((transformDefect "https://dev.azure.com" "org" "QA" c10Item).severity ∈
        ["critical", "major", "minor", "trivial"] ∧
      (c10Item.severity = none →
        (transformDefect "https://dev.azure.com" "org" "QA" c10Item).severity = "minor") ∧
      ((transformDefect "https://dev.azure.com" "org" "QA" c10Item).status ∈
        ["open", "in-progress", "resolved", "closed"]) ∧
      (c10Item.state ∉ ["New", "Active", "In Progress", "Resolved", "Closed"] →
        (transformDefect "https://dev.azure.com" "org" "QA" c10Item).status = "open") ∧
      (c10Item.assignedTo = none →
        (transformDefect "https://dev.azure.com" "org" "QA" c10Item).assignee = "Unassigned") ∧
      (transformDefect "https://dev.azure.com" "org" "QA" c10Item).id = "DEF-4711") := by
  have h := (transformDefects_safe "https://dev.azure.com" "org" "QA" [c10Item]).2.2
    c10Item (by decide)
  exact ⟨by decide, h.1, h.2.1, h.2.2.2.1, h.2.2.2.2.1, h.2.2.2.2.2.1, by decide⟩

/-- The empty remote configuration of the C7 scenarios. -/
def c7Config : AzureDevOpsConfig :=
  { organization := "", personalAccessToken := "", baseUrl := "https://dev.azure.com" }

/-- The synthetic-data output of the C7 scenarios. -/
def c7Demo : DemoData := { projects := [], defects := [] }

/-- A marker state for the remote branches of the C7 scenarios, carrying a
non-null error message to show it is not the state selected. -/
def c7Remote : DashState :=
  { projects := [], defects := [], dataSourceError := some "remote" }

/-- C7 counterexample: with `{organization: '', personalAccessToken: ''}`
and mode `pipelines`, `refreshData` takes the demo fallback branch, which
sets `dataSourceError` to `null` — not to a non-null configuration-error
message as the claim states. -/
theorem refreshData_unconfigured_error_is_null :
    refreshData "pipelines" c7Config c7Demo c7Remote c7Remote =
      fetchFromDemo c7Demo ∧
    (refreshData "pipelines" c7Config c7Demo c7Remote c7Remote).dataSourceError =
      none :=
  ⟨rfl, rfl⟩

/-- C7 as amended: with mode `pipelines` or mode `testplans` and an
unconfigured connection (empty organization or token), `refreshData`
produces exactly the Synthetic-Data-Generator output, with
`dataSourceError` cleared to `null` (the not-configured condition is
surfaced by the separate `isConfigured` flag, not by an error message),
and the orchestration is a total function — no unhandled rejection. -/
theorem refreshData_unconfigured_demo_fallback (dataSource : String)
    (config : AzureDevOpsConfig) (demo : DemoData)
    (pipelinesState testplansState : DashState)
    (hmode : dataSource = "pipelines" ∨ dataSource = "testplans")
    (h : isConfigured config = false) :
    refreshData dataSource config demo pipelinesState testplansState =
      fetchFromDemo demo ∧
    (refreshData dataSource config demo pipelinesState testplansState).projects =
      demo.projects ∧
    (refreshData dataSource config demo pipelinesState testplansState).defects =
      demo.defects ∧
    (refreshData dataSource config demo pipelinesState testplansState).dataSourceError =
      none := by
  have hd : refreshData dataSource config demo pipelinesState testplansState =
      fetchFromDemo demo := by
    rcases hmode with rfl | rfl <;>
      · unfold refreshData
        rw [h]
        rfl
  refine ⟨hd, ?_, ?_, ?_⟩ <;> rw [hd] <;> rfl

/-- Witness for the amended C7 at the empty configuration, in both remote
modes. -/
theorem refreshData_unconfigured_demo_fallback_witness :
    (isConfigured c7Config = false) ∧
    (refreshData "pipelines" c7Config c7Demo c7Remote c7Remote =
        fetchFromDemo c7Demo ∧
      (refreshData "pipelines" c7Config c7Demo c7Remote c7Remote).projects =
        c7Demo.projects ∧
      (refreshData "pipelines" c7Config c7Demo c7Remote c7Remote).defects =
        c7Demo.defects ∧
      (refreshData "pipelines" c7Config c7Demo c7Remote c7Remote).dataSourceError =
        none) ∧
    (refreshData "testplans" c7Config c7Demo c7Remote c7Remote =
        fetchFromDemo c7Demo ∧
      (refreshData "testplans" c7Config c7Demo c7Remote c7Remote).projects =
        c7Demo.projects ∧
      (refreshData "testplans" c7Config c7Demo c7Remote c7Remote).defects =
        c7Demo.defects ∧
      (refreshData "testplans" c7Config c7Demo c7Remote c7Remote).dataSourceError =
        none) :=
  ⟨rfl,
   refreshData_unconfigured_demo_fallback "pipelines" c7Config c7Demo c7Remote
     c7Remote (Or.inl rfl) rfl,
   refreshData_unconfigured_demo_fallback "testplans" c7Config c7Demo c7Remote
     c7Remote (Or.inr rfl) rfl⟩

/-- Folding the area paths into the module map appends one zero module per
path when the paths are distinct. -/
theorem initModules_aux (aps : List String) :
    ∀ acc : List (String × ModuleTestResult), aps.Nodup →
    (∀ a ∈ aps, a ∉ acc.map Prod.fst) →
    aps.foldl (fun acc a => mapSet acc a (zeroAreaModule a)) acc =
      acc ++ aps.map (fun a => (a, zeroAreaModule a)) := by
  induction aps with
  | nil => intro acc _ _; simp
  | cons a rest ih =>
    intro acc hnd hacc
    have hanotin : a ∉ acc.map Prod.fst := hacc a (by simp)
    have hstep : mapSet acc a (zeroAreaModule a) = acc ++ [(a, zeroAreaModule a)] := by
      rw [mapSet, if_neg hanotin]
    rw [List.foldl_cons, hstep, ih (acc ++ [(a, zeroAreaModule a)]) (List.Nodup.of_cons hnd)]
    · simp
    · intro a' ha'
      simp only [List.map_append, List.mem_append]
      push_neg
      constructor
      · exact hacc a' (List.mem_cons_of_mem a ha')
      · simp only [List.map_cons, List.map_nil, List.mem_singleton]
        intro hEq
        subst hEq
        exact (List.nodup_cons.mp hnd).1 ha'

/-- With distinct area paths the initialized module map is one zero module
per path, in order. -/
theorem initModules_nodup (aps : List String) (h : aps.Nodup) :
    initModules aps = aps.map (fun a => (a, zeroAreaModule a)) := by
  have := initModules_aux aps [] h (by simp)
  simpa [initModules] using this

/-- Folding the defects over the module map appends, to each entry's
`linkedDefects`, exactly the ids of the defects whose area-path tail is
that entry's key, in defect order. -/
theorem linkDefect_foldl (ds : List AzureWorkItem) :
    ∀ M : List (String × ModuleTestResult),
    ds.foldl linkDefect M = M.map (fun p => (p.1,
      { p.2 with linkedDefects := p.2.linkedDefects ++
          ((ds.filter (fun d => lastSegment d.areaPath = p.1)).map
            (fun d => toString d.id)) })) := by
  induction ds with
  | nil =>
    intro M
    simp
  | cons d rest ih =>
    intro M
    rw [List.foldl_cons, ih (linkDefect M d), linkDefect, List.map_map]
    apply List.map_congr_left
    intro p _
    by_cases h : lastSegment d.areaPath = p.1
    · simp only [Function.comp_apply, if_pos h, List.filter_cons, h]
      simp [List.append_assoc]
    · simp only [Function.comp_apply, if_neg h, List.filter_cons]
      simp [h]

/-- C6: in the test-plan strategy, each Module's `linkedDefects` is
exactly the ids of the fetched defects whose area-path tail segment equals
that Module's name — a matching defect is linked to exactly its Module and
to no other (Module names are the pairwise-distinct area paths), an
unmatched defect is linked to none — while every fetched defect, matched
or not, appears in the flat transformed defect list. -/
theorem testplan_defect_linkage (name : String) (runs : List AzureTestRun)
    (aps : List String) (ds : List AzureWorkItem) (h : aps.Nodup) :
    ((getProjectDataCore name runs aps ds).modules.map (fun m => m.moduleName)) = aps ∧
    (∀ m ∈ (getProjectDataCore name runs aps ds).modules,
      m.linkedDefects =
        (ds.filter (fun d => lastSegment d.areaPath = m.moduleName)).map
          (fun d => toString d.id)) ∧
    (∀ baseUrl org env, (transformDefects baseUrl org ds env).map (fun d => d.id) =
        ds.map (fun w => "DEF-" ++ toString w.id)) := by
  have hmod : (getProjectDataCore name runs aps ds).modules =
      ((ds.foldl linkDefect (initModules aps)).map (fun p =>
        { p.2 with passRate :=
            if p.2.executed > 0 then ((p.2.passed : Rat) / (p.2.executed : Rat)) * 100
            else 0 })) := rfl
  rw [linkDefect_foldl, initModules_nodup aps h, List.map_map, List.map_map] at hmod
  refine ⟨?_, ?_, ?_⟩
  · rw [hmod, List.map_map]
    exact List.map_id aps
  · rw [hmod]
    intro m hm
    rcases List.mem_map.mp hm with ⟨a, ha, rfl⟩
    simp [zeroAreaModule]
  · intro bu org env
    rw [transformDefects, List.map_map]
    rfl

/-- The defect of the C6 witness: its area path `"ProjectX\Payments"` has
tail segment `"Payments"`. -/
def c6Defect : AzureWorkItem :=
  { id := 9, title := "Checkout bug", state := "New", assignedTo := none,
    severity := none, createdDate := "2024-01-02",
    areaPath := "ProjectX\\Payments" }

/-- Witness for C6: the defect lands in the `"Payments"` Module's
`linkedDefects` and in no other Module, and appears in the flat list. -/
theorem testplan_defect_linkage_witness :
    (((getProjectDataCore "ProjectX" [] ["Payments", "Auth"] [c6Defect]).modules.map
        (fun m => (m.moduleName, m.linkedDefects))) =
      [("Payments", ["9"]), ("Auth", [])]) ∧
    (((getProjectDataCore "ProjectX" [] ["Payments", "Auth"] [c6Defect]).modules.map
        (fun m => m.moduleName)) = ["Payments", "Auth"] ∧
     (∀ m ∈ (getProjectDataCore "ProjectX" [] ["Payments", "Auth"] [c6Defect]).modules,
        m.linkedDefects =
          ([c6Defect].filter (fun d => lastSegment d.areaPath = m.moduleName)).map
            (fun d => toString d.id)) ∧
     (∀ baseUrl org env,
        (transformDefects baseUrl org [c6Defect] env).map (fun d => d.id) =
          [c6Defect].map (fun w => "DEF-" ++ toString w.id))) :=
  ⟨by decide,
   testplan_defect_linkage "ProjectX" [] ["Payments", "Auth"] [c6Defect] (by decide)⟩

/-- Every value stored in the initialized module map has zero
`passed`/`failed`/`executed` counters. -/
theorem initModules_values (aps : List String) :
    ∀ acc : List (String × ModuleTestResult),
    (∀ p ∈ acc, p.2.passed = 0 ∧ p.2.failed = 0 ∧ p.2.executed = 0) →
    ∀ p ∈ aps.foldl (fun acc a => mapSet acc a (zeroAreaModule a)) acc,
      p.2.passed = 0 ∧ p.2.failed = 0 ∧ p.2.executed = 0 := by
  induction aps with
  | nil => intro acc hacc; simpa using hacc
  | cons a rest ih =>
    intro acc hacc
    rw [List.foldl_cons]
    apply ih
    intro p hp
    rw [mapSet] at hp
    split at hp
    · rcases List.mem_map.mp hp with ⟨q, hq, rfl⟩
      split
      · exact ⟨rfl, rfl, rfl⟩
      · exact hacc q hq
    · rcases List.mem_append.mp hp with hq | hq
      · exact hacc p hq
      · rcases List.mem_singleton.mp hq with rfl
        exact ⟨rfl, rfl, rfl⟩

/-- Every Module produced by the test-plan strategy keeps zero
`passed`/`failed` counts (the run totals are never folded into modules)
and hence a zero-guarded pass rate of `0`. -/
theorem core_modules_zero (name : String) (runs : List AzureTestRun)
    (aps : List String) (ds : List AzureWorkItem) :
    ∀ m ∈ (getProjectDataCore name runs aps ds).modules,
      m.passed = 0 ∧ m.failed = 0 ∧ m.passRate = 0 := by
  intro m hm
  have hmod : (getProjectDataCore name runs aps ds).modules =
      ((ds.foldl linkDefect (initModules aps)).map (fun p =>
        { p.2 with passRate :=
            if p.2.executed > 0 then ((p.2.passed : Rat) / (p.2.executed : Rat)) * 100
            else 0 })) := rfl
  rw [hmod, linkDefect_foldl, List.map_map] at hm
  rcases List.mem_map.mp hm with ⟨p, hp, rfl⟩
  have hz := initModules_values aps [] (by simp) p hp
  refine ⟨hz.1, hz.2.1, ?_⟩
  show (if p.2.executed > 0 then ((p.2.passed : Rat) / (p.2.executed : Rat)) * 100 else 0) = 0
  rw [hz.2.2]
  norm_num

/-- C3 as amended: `buildBreakdown` computes
`passRate = round1(passed/(passed+failed)*100)` when `passed+failed > 0`
(in particular `80.0` for 80 passed / 20 failed) and `0` when
`passed+failed = 0`; every test-plan Module has `passed = failed = 0` and
`passRate = 0`; the test-plan Project-level `passRate`, however, divides
by `executed = totalTests` — it is `passed/totalTests*100` when
`totalTests > 0` and `0` when `totalTests = 0`.  All pass rates are
zero-guarded total rationals — never `NaN` or `Infinity`. -/
theorem passRate_guarded_formula (total passed failed skipped : Nat)
    (name : String) (runs : List AzureTestRun) (aps : List String)
    (ds : List AzureWorkItem) :
    (passed + failed > 0 →
      (buildBreakdown total passed failed skipped).passRate =
        round1 (((passed : Rat) / ((passed : Rat) + (failed : Rat))) * 100)) ∧
    (passed + failed = 0 →
      (buildBreakdown total passed failed skipped).passRate = 0) ∧
    ((buildBreakdown 100 80 20 0).passRate = 80) ∧
    (∀ m ∈ (getProjectDataCore name runs aps ds).modules,
      m.passed = 0 ∧ m.failed = 0 ∧ m.passRate = 0) ∧
    ((getProjectDataCore name runs aps ds).totalTests = 0 →
      (getProjectDataCore name runs aps ds).passRate = 0) ∧
    ((getProjectDataCore name runs aps ds).totalTests > 0 →
      (getProjectDataCore name runs aps ds).passRate =
        ((getProjectDataCore name runs aps ds).passed : Rat) /
          ((getProjectDataCore name runs aps ds).totalTests : Rat) * 100) := by
  have hpr : (getProjectDataCore name runs aps ds).passRate =
      if (getProjectDataCore name runs aps ds).totalTests > 0 then
        ((getProjectDataCore name runs aps ds).passed : Rat) /
          ((getProjectDataCore name runs aps ds).totalTests : Rat) * 100
      else 0 := rfl
  refine ⟨?_, ?_, ?_, core_modules_zero name runs aps ds, ?_, ?_⟩
  · intro h
    show (if passed + failed > 0 then _ else _) = _
    rw [if_pos h]
  · intro h
    show (if passed + failed > 0 then _ else _) = (0 : Rat)
    rw [if_neg (by omega)]
  · norm_num [buildBreakdown, round1]
  · intro h
    rw [hpr, h]
    norm_num
  · intro h
    rw [hpr, if_pos h]

/-- The single test run of the C3 counterexample: 4 total, 1 passed,
1 failed, 2 not applicable. -/
def c3Run : AzureTestRun :=
  { id := 31, name := "run", isAutomated := true, totalTests := 4,
    passedTests := 1, failedTests := 1, notApplicableTests := 2 }

/-- C3 counterexample: for the test-plan Project built from `c3Run`,
`passed + failed = 2 > 0` yet `passRate = 25` (it divides by
`totalTests = 4`), while the claimed formula `passed/(passed+failed)*100`
gives `50`. -/
theorem passRate_formula_counterexample :
    ((getProjectDataCore "P" [c3Run] [] []).passed +
      (getProjectDataCore "P" [c3Run] [] []).failed > 0) ∧
    ((getProjectDataCore "P" [c3Run] [] []).passRate = 25) ∧
    (((getProjectDataCore "P" [c3Run] [] []).passed : Rat) /
        (((getProjectDataCore "P" [c3Run] [] []).passed : Rat) +
         ((getProjectDataCore "P" [c3Run] [] []).failed : Rat)) * 100 = 50) ∧
    ((25 : Rat) ≠ 50) := by
  have hp : (getProjectDataCore "P" [c3Run] [] []).passed = 1 := by decide
  have hf : (getProjectDataCore "P" [c3Run] [] []).failed = 1 := by decide
  have hr : (getProjectDataCore "P" [c3Run] [] []).passRate =
      if (0 + 4 : Nat) > 0 then ((0 + 1 : Nat) : Rat) / ((0 + 4 : Nat) : Rat) * 100
      else 0 := rfl
  refine ⟨by decide, ?_, ?_, by norm_num⟩
  · rw [hr]
    norm_num
  · rw [hp, hf]
    norm_num

/-- Witness for the amended C3 at concrete inputs: the 80/20 breakdown,
a zero breakdown, the all-empty project, and the `c3Run` project. -/
theorem passRate_guarded_formula_witness :
    ((buildBreakdown 100 80 20 0).passRate =
      round1 (((80 : Rat) / ((80 : Rat) + (20 : Rat))) * 100)) ∧
    ((buildBreakdown 7 0 0 7).passRate = 0) ∧
    ((getProjectDataCore "Q" [] [] []).passRate = 0) ∧
    ((getProjectDataCore "P" [c3Run] [] []).passRate =
      ((getProjectDataCore "P" [c3Run] [] []).passed : Rat) /
        ((getProjectDataCore "P" [c3Run] [] []).totalTests : Rat) * 100) :=
  ⟨(passRate_guarded_formula 100 80 20 0 "Q" [] [] []).1 (by decide),
   (passRate_guarded_formula 7 0 0 7 "Q" [] [] []).2.1 rfl,
   (passRate_guarded_formula 7 0 0 7 "Q" [] [] []).2.2.2.2.1 (by decide),
   (passRate_guarded_formula 7 0 0 7 "P" [c3Run] [] []).2.2.2.2.2 (by decide)⟩

/-- The single test run of the C1 failing input: 5 total, 3 passed,
1 failed, 1 not applicable. -/
def c1Run : AzureTestRun :=
  { id := 41, name := "run", isAutomated := true, totalTests := 5,
    passedTests := 3, failedTests := 1, notApplicableTests := 1 }

/-- C1 is violated by `getProjectData` (test-plan strategy): the run
totals are summed into the Project counters but never folded into any
Module, so with one run of 3 passed / 1 failed / 1 skipped and one module
the Project reports `passed = 3` while the Modules sum to `0` — and
likewise for `failed`, `skipped` and `totalTests`.  (The pipeline strategy
returns only the empty all-zero Project, where the sums agree trivially;
see `pipelines_empty_day_zero_project` and
`core_modules_zero`.) -/
theorem sum_invariant_violated_testplan :
    ∃ p, getProjectData "ProjectX"
        { testRuns := .ok [c1Run], areaPaths := .ok ["Payments"],
          defects := .ok [] } = some p ∧
      p.passed = 3 ∧ ((p.modules.map (fun m => m.passed)).sum = 0) ∧
      p.failed = 1 ∧ ((p.modules.map (fun m => m.failed)).sum = 0) ∧
      p.skipped = 1 ∧ ((p.modules.map (fun m => m.skipped)).sum = 0) ∧
      p.totalTests = 5 ∧ ((p.modules.map (fun m => m.totalTests)).sum = 0) ∧
      p.modules ≠ [] :=
  ⟨getProjectDataCore "ProjectX" [c1Run] ["Payments"] [], rfl,
   by decide, by decide, by decide, by decide, by decide, by decide,
   by decide, by decide, by decide⟩

/-- The two same-definition builds of the C4 failing input: both builds
ran pipeline definition 7 (`"Nightly"`) on the selected date. -/
def c4BuildA : AzureBuild :=
  { id := 401, buildNumber := "20240103.1", startTime := "sA", finishTime := "fA",
    definition := { name := "Nightly", id := 7 } }

/-- The second build of the C4 failing input. -/
def c4BuildB : AzureBuild :=
  { id := 402, buildNumber := "20240103.2", startTime := "sB", finishTime := "fB",
    definition := { name := "Nightly", id := 7 } }

/-- The C4 fetch oracle: every build has one test run with one result. -/
def c4Fetches : Fetches :=
  { testRunsForBuild := fun _ =>
      .ok [{ id := 42, name := "run", isAutomated := true, totalTests := 1,
             passedTests := 1, failedTests := 0, notApplicableTests := 0 }]
    testResults := fun _ =>
      .ok [{ id := 43, outcome := "Passed", automatedTestName := some "Suite.t" }] }

/-- C4 is violated: `getProjectDataFromPipelines` maps one module per
surviving *build* without grouping by `definition.id`, so two builds of
definition 7 give two per-build summaries whose `moduleId` expression
(`"pipeline-" + definitionId`, line 455) collides; moreover the module
construction references the unbound identifiers `automated`/`manual`, so
the call in fact returns `null` and produces no Modules at all. -/
theorem pipeline_module_grouping_bug :
    ((getTestResultsByPipelines c4Fetches [c4BuildA, c4BuildB]).map
        (fun pr => pr.definitionId) = [7, 7]) ∧
    ((getTestResultsByPipelines c4Fetches [c4BuildA, c4BuildB]).map
        pipelineModuleId = ["pipeline-7", "pipeline-7"]) ∧
    (getProjectDataFromPipelines c4Fetches "P" [c4BuildA, c4BuildB] = none) := by
  decide

/-- The automated result of the C5 failing input. -/
def c5ResultAuto : AzureTestResult :=
  { id := 51, outcome := "Passed", automatedTestName := some "Suite.testA" }

/-- The manual result of the C5 failing input. -/
def c5ResultManual : AzureTestResult :=
  { id := 52, outcome := "Passed", automatedTestName := none }

/-- The single build of the C5 failing input. -/
def c5Build : AzureBuild :=
  { id := 501, buildNumber := "20240104.1", startTime := "sC", finishTime := "fC",
    definition := { name := "CI", id := 9 } }

/-- The C5 fetch oracle: one run whose results are one automated and one
manual test. -/
def c5Fetches : Fetches :=
  { testRunsForBuild := fun _ =>
      .ok [{ id := 53, name := "run", isAutomated := true, totalTests := 2,
             passedTests := 2, failedTests := 0, notApplicableTests := 0 }]
    testResults := fun _ => .ok [c5ResultAuto, c5ResultManual] }

/-- C5: the classification locals (lines 448-453) do classify each result
by presence of `automatedTestName` — here 1 automated, 1 manual — but no
`automated`/`manual` Breakdown is ever attached to a Module: the module
literal has no such fields, the computed subset counts are dead stores,
and evaluating the literal throws on the unbound identifier `automated`,
so the whole call returns `null`. -/
theorem pipeline_breakdown_construction_bug :
    ((getTestResultsByPipelines c5Fetches [c5Build]).map (fun pr => pr.results) =
      [[c5ResultAuto, c5ResultManual]]) ∧
    (List.filter (fun r => truthy r.automatedTestName)
        [c5ResultAuto, c5ResultManual] = [c5ResultAuto]) ∧
    (autoCount [c5ResultAuto, c5ResultManual] = 1) ∧
    (manualCount [c5ResultAuto, c5ResultManual] = 1) ∧
    (autoPassed [c5ResultAuto, c5ResultManual] = 1) ∧
    (manualPassed [c5ResultAuto, c5ResultManual] = 1) ∧
    (mkPipelineModule
        { pipelineName := "CI", definitionId := 9, buildId := 501,
          buildNumber := "20240104.1", completedDate := "fC", totalTests := 2,
          passed := 2, failed := 0, skipped := 0,
          results := [c5ResultAuto, c5ResultManual] } =
      .error (.referenceError "automated")) ∧
    (getProjectDataFromPipelines c5Fetches "P" [c5Build] = none) := by
  refine ⟨by decide, by decide, by decide, by decide, by decide, by decide, rfl, by decide⟩

end QADash
